import Mathlib

/-!
Shallow embedding of the ALMaSS Osmia bicornis life-stage model
(src/src/Osmia_enhanced.cpp, src/src/Osmia_enh_PART2_LifeStages.h,
src/src/Osmia_enh_HeaderWithBase.h, src/src/Osmia_Population_Manager_dox.{h,cpp}).

C++ doubles are modelled as exact rationals (ℚ); the framework's random
draws (g_rand_uni_fnc, g_random_fnc, probability_distribution::Geti) are
passed in as explicit arguments, so every function is a deterministic map
from its state and that day's inputs to the next state.
-/

namespace Osmia

/-- Parasitoid status carried by every individual
(TTypeOfOsmiaParasitoids in Osmia_enh_HeaderWithBase.h). -/
inductive TTypeOfOsmiaParasitoids where
  | topara_Unparasitised
  | topara_Bombylid
  | topara_Cleptoparasite
deriving DecidableEq, Repr

/-- Behavioural-state results returned by the st_Develop functions
(subset of TTypeOfOsmiaState used by them). -/
inductive TTypeOfOsmiaState where
  | toOsmias_Develop
  | toOsmias_NextStage
  | toOsmias_Die
deriving DecidableEq, Repr

/-- Model parameters cached by Osmia_Base::SetParameterValues
(Osmia_enhanced.cpp lines 1483-1527); names follow the member variables. -/
structure Params where
  m_OsmiaEggDevelThreshold : ℚ
  m_OsmiaEggDevelTotalDD : ℚ
  m_OsmiaLarvaDevelThreshold : ℚ
  m_OsmiaLarvaDevelTotalDD : ℚ
  m_OsmiaPupaDevelThreshold : ℚ
  m_OsmiaPupaDevelTotalDD : ℚ
  m_OsmiaPrepupalDevelTotalDays : ℚ
  m_OsmiaInCocoonOverwinteringTempThreshold : ℚ
  m_OsmiaInCocoonEmergenceTempThreshold : ℚ
  m_OsmiaInCocoonPrewinteringTempThreshold : ℚ
  m_OsmiaInCocoonEmergCountConst : ℚ
  m_OsmiaInCocoonEmergCountSlope : ℚ
  m_OsmiaInCocoonWinterMortConst : ℚ
  m_OsmiaInCocoonWinterMortSlope : ℚ
  m_OsmiaFemaleMassFromProvMassSlope : ℚ
  m_OsmiaFemaleMassFromProvMassConst : ℚ
deriving DecidableEq, Repr

/-- The cfg_* default values declared in Osmia_enhanced.cpp
(lines 161, 202, 243, 281, 329, 375, 409, 453, 487, 541, 577, 612, 790,
830, 1075, 1114). -/
def defaultParams : Params where
  m_OsmiaEggDevelThreshold := 0
  m_OsmiaEggDevelTotalDD := 86
  m_OsmiaLarvaDevelThreshold := 4.5
  m_OsmiaLarvaDevelTotalDD := 422
  m_OsmiaPupaDevelThreshold := 1.1
  m_OsmiaPupaDevelTotalDD := 570
  m_OsmiaPrepupalDevelTotalDays := 45
  m_OsmiaInCocoonOverwinteringTempThreshold := 0
  m_OsmiaInCocoonEmergenceTempThreshold := 5
  m_OsmiaInCocoonPrewinteringTempThreshold := 15
  m_OsmiaInCocoonEmergCountConst := 35.4819
  m_OsmiaInCocoonEmergCountSlope := -0.0147
  m_OsmiaInCocoonWinterMortConst := -4.63
  m_OsmiaInCocoonWinterMortSlope := 0.05
  m_OsmiaFemaleMassFromProvMassSlope := 0.25
  m_OsmiaFemaleMassFromProvMassConst := 4.0

/-- Egg/Larva/Pupa development bookkeeping: m_Age (days) and
m_AgeDegrees (accumulated degree-days), per Osmia_Egg in
Osmia_enh_PART2_LifeStages.h. -/
structure DevState where
  m_Age : ℤ
  m_AgeDegrees : ℚ
deriving DecidableEq, Repr

/-- Osmia_Egg::st_Develop (Osmia_enhanced.cpp lines 1709-1735), without
the optional pesticide engine. `nestOpen` is m_OurNest->GetIsOpen();
`mortDies` is the outcome of the DailyMortality() draw, consulted only
when the nest is sealed, exactly as in the source. Note that the
age/degree-day section runs unconditionally. -/
def Osmia_Egg.st_Develop (p : Params) (nestOpen mortDies : Bool) (tempToday : ℚ)
    (s : DevState) : TTypeOfOsmiaState × DevState :=
  if !nestOpen && mortDies then (TTypeOfOsmiaState.toOsmias_Die, s)
  else
    let DD : ℚ := tempToday - p.m_OsmiaEggDevelThreshold
    let s' : DevState := ⟨s.m_Age + 1, if DD > 0 then s.m_AgeDegrees + DD else s.m_AgeDegrees⟩
    if s'.m_AgeDegrees > p.m_OsmiaEggDevelTotalDD then (TTypeOfOsmiaState.toOsmias_NextStage, s')
    else (TTypeOfOsmiaState.toOsmias_Develop, s')

/-- Osmia_Larva::st_Develop (Osmia_enhanced.cpp lines 1936-1945); same
shape as the egg but with the larval threshold/total. -/
def Osmia_Larva.st_Develop (p : Params) (nestOpen mortDies : Bool) (tempToday : ℚ)
    (s : DevState) : TTypeOfOsmiaState × DevState :=
  if !nestOpen && mortDies then (TTypeOfOsmiaState.toOsmias_Die, s)
  else
    let DD : ℚ := tempToday - p.m_OsmiaLarvaDevelThreshold
    let s' : DevState := ⟨s.m_Age + 1, if DD > 0 then s.m_AgeDegrees + DD else s.m_AgeDegrees⟩
    if s'.m_AgeDegrees > p.m_OsmiaLarvaDevelTotalDD then (TTypeOfOsmiaState.toOsmias_NextStage, s')
    else (TTypeOfOsmiaState.toOsmias_Develop, s')

/-- Osmia_Pupa::st_Develop (Osmia_enhanced.cpp lines 2405-2416); the
mortality draw is unconditional here. -/
def Osmia_Pupa.st_Develop (p : Params) (mortDies : Bool) (tempToday : ℚ)
    (s : DevState) : TTypeOfOsmiaState × DevState :=
  if mortDies then (TTypeOfOsmiaState.toOsmias_Die, s)
  else
    let DD : ℚ := tempToday - p.m_OsmiaPupaDevelThreshold
    let s' : DevState := ⟨s.m_Age + 1, if DD > 0 then s.m_AgeDegrees + DD else s.m_AgeDegrees⟩
    if s'.m_AgeDegrees > p.m_OsmiaPupaDevelTotalDD then (TTypeOfOsmiaState.toOsmias_NextStage, s')
    else (TTypeOfOsmiaState.toOsmias_Develop, s')

/-- Iterated egg Develop steps over a list of daily inputs
(nest-open flag, mortality-draw outcome, temperature). -/
def eggRun (p : Params) : List (Bool × Bool × ℚ) → DevState → DevState
  | [], s => s
  | (o, m, t) :: ds, s => eggRun p ds (Osmia_Egg.st_Develop p o m t s).2

/-- Iterated larva Develop steps over a list of daily inputs. -/
def larvaRun (p : Params) : List (Bool × Bool × ℚ) → DevState → DevState
  | [], s => s
  | (o, m, t) :: ds, s => larvaRun p ds (Osmia_Larva.st_Develop p o m t s).2

/-- Iterated pupa Develop steps over a list of daily inputs
(mortality-draw outcome, temperature). -/
def pupaRun (p : Params) : List (Bool × ℚ) → DevState → DevState
  | [], s => s
  | (m, t) :: ds, s => pupaRun p ds (Osmia_Pupa.st_Develop p m t s).2

/-- Prepupa bookkeeping: m_Age, the day counter m_AgeDegrees (a misnomer
kept from the source) and the individually drawn target
m_myOsmiaPrepupaDevelTotalDays (Osmia_enh_PART2_LifeStages.h line 401). -/
structure PrepupaState where
  m_Age : ℤ
  m_AgeDegrees : ℚ
  m_myOsmiaPrepupaDevelTotalDays : ℚ
deriving DecidableEq, Repr

/-- The individual development-target draw performed by the
Osmia_Prepupa constructor (Osmia_enhanced.cpp lines 2064-2065):
max20pct = total * 0.2 * u with u the g_rand_uni_fnc() draw, and
target = total + max20pct - total * 0.1 (the cached 10pct value set in
SetParameterValues, line 1500). -/
def Osmia_Prepupa.targetDays (p : Params) (u : ℚ) : ℚ :=
  p.m_OsmiaPrepupalDevelTotalDays + p.m_OsmiaPrepupalDevelTotalDays * 0.2 * u
    - p.m_OsmiaPrepupalDevelTotalDays * 0.1

/-- State built by the Osmia_Prepupa constructor (Osmia_enhanced.cpp
lines 2060-2066): the inherited ReInit chain keeps the incoming age,
m_AgeDegrees is reset to 0 and the target is drawn once from `u`. -/
def Osmia_Prepupa.construct (p : Params) (age : ℤ) (u : ℚ) : PrepupaState :=
  ⟨age, 0, Osmia_Prepupa.targetDays p u⟩

/-- Osmia_Prepupa::st_Develop (Osmia_enhanced.cpp lines 2164-2176).
`prePupalDevelDays` is the population-wide daily rate from
Osmia_Population_Manager::GetPrePupalDevelDays(). The source line
`if (m_AgeDegrees++ > m_myOsmiaPrepupaDevelTotalDays)` compares the
value obtained after `+= rate` and then post-increments it by one. -/
def Osmia_Prepupa.st_Develop (mortDies : Bool) (prePupalDevelDays : ℚ)
    (s : PrepupaState) : TTypeOfOsmiaState × PrepupaState :=
  if mortDies then (TTypeOfOsmiaState.toOsmias_Die, s)
  else
    let afterRate : ℚ := s.m_AgeDegrees + prePupalDevelDays
    let s' : PrepupaState := ⟨s.m_Age + 1, afterRate + 1, s.m_myOsmiaPrepupaDevelTotalDays⟩
    if afterRate > s.m_myOsmiaPrepupaDevelTotalDays then (TTypeOfOsmiaState.toOsmias_NextStage, s')
    else (TTypeOfOsmiaState.toOsmias_Develop, s')

/-- Iterated prepupa Develop steps over a list of daily inputs
(mortality-draw outcome, daily rate). -/
def prepupaRun : List (Bool × ℚ) → PrepupaState → PrepupaState
  | [], s => s
  | (m, r) :: ds, s => prepupaRun ds (Osmia_Prepupa.st_Develop m r s).2

/-- Day-in-year value of the day before 1 March in the ALMaSS calendar
(framework constant used as `March` by the source; `March + 1` is the
first day of March, see Osmia_enhanced.cpp line 2726). -/
def March : ℤ := 59

/-- Day-in-year value of the day before 1 June in the ALMaSS calendar
(framework constant used as `June` by the source, see Osmia_enhanced.cpp
line 2737 and Osmia_Population_Manager_dox.h line 1728). -/
def June : ℤ := 151

/-- C++ double-to-int conversion (truncation toward zero), used for the
`int(...)` cast in the emergence-counter formula. -/
def cppIntOfDouble (x : ℚ) : ℤ := if 0 ≤ x then ⌊x⌋ else ⌈x⌉

/-- Osmia_InCocoon bookkeeping (Osmia_enh_HeaderWithBase.h): m_Age, the
repurposed winter accumulator m_AgeDegrees, the prewinter accumulator
m_DDPrewinter and the spring countdown m_emergencecounter. -/
structure InCocoonState where
  m_Age : ℤ
  m_AgeDegrees : ℚ
  m_DDPrewinter : ℚ
  m_emergencecounter : ℤ
deriving DecidableEq, Repr

/-- Daily inputs consumed by Osmia_InCocoon::st_Develop: the population
manager's two seasonal flags, the day in year, today's temperature, the
g_random_fnc(100) draw consumed by WinterMortality if it is reached, the
m_emergenceday.Geti() draw and the nest's GetAspectDelay(). -/
structure CocoonDayInput where
  endPreWinter : Bool
  overWinterEnd : Bool
  dayInYear : ℤ
  tempToday : ℚ
  mortDraw : ℤ
  emergenceDayDraw : ℤ
  aspectDelay : ℤ
deriving DecidableEq, Repr

/-- Osmia_InCocoon::WinterMortality (Osmia_enhanced.cpp lines 2939-2949):
the g_random_fnc(100) integer draw (uniform on 0..99) is compared with
the raw linear value slope * m_DDPrewinter + const; no clamping is
applied anywhere. -/
def Osmia_InCocoon.WinterMortality (p : Params) (draw : ℤ) (ddPrewinter : ℚ) : Bool :=
  if (draw : ℚ) <
      p.m_OsmiaInCocoonWinterMortSlope * ddPrewinter + p.m_OsmiaInCocoonWinterMortConst
  then true else false

/-- Osmia_InCocoon::st_Develop (Osmia_enhanced.cpp lines 2706-2748).
The third component records whether the WinterMortality draw was
consumed during this step. -/
def Osmia_InCocoon.st_Develop (p : Params) (d : CocoonDayInput) (s : InCocoonState) :
    TTypeOfOsmiaState × InCocoonState × Bool :=
  let s₁ : InCocoonState := { s with m_Age := s.m_Age + 1 }
  if d.endPreWinter then
    if !d.overWinterEnd then
      -- pre-wintering over, but not yet 1 March: accumulate winter DD
      let DD : ℚ := d.tempToday - p.m_OsmiaInCocoonOverwinteringTempThreshold
      let s₂ := if DD > 0 then { s₁ with m_AgeDegrees := s₁.m_AgeDegrees + DD } else s₁
      (TTypeOfOsmiaState.toOsmias_Develop, s₂, false)
    else
      if d.dayInYear = March + 1 then
        let c0 : ℤ := cppIntOfDouble (p.m_OsmiaInCocoonEmergCountConst
            + p.m_OsmiaInCocoonEmergCountSlope * s₁.m_AgeDegrees)
          + d.emergenceDayDraw + d.aspectDelay
        let s₂ := { s₁ with m_emergencecounter := c0 }
        (TTypeOfOsmiaState.toOsmias_Develop, s₂, false)
      else if d.tempToday ≥ p.m_OsmiaInCocoonEmergenceTempThreshold then
        let c : ℤ := s₁.m_emergencecounter - 1
        let s₂ := { s₁ with m_emergencecounter := c }
        if c < 1 then
          if Osmia_InCocoon.WinterMortality p d.mortDraw s₂.m_DDPrewinter then
            (TTypeOfOsmiaState.toOsmias_Die, s₂, true)
          else (TTypeOfOsmiaState.toOsmias_NextStage, s₂, true)
        else if d.dayInYear = June - 1 then (TTypeOfOsmiaState.toOsmias_Die, s₂, false)
        else (TTypeOfOsmiaState.toOsmias_Develop, s₂, false)
      else (TTypeOfOsmiaState.toOsmias_Develop, s₁, false)
  else
    -- still pre-wintering: count up prewintering day degrees
    let s₂ := if d.tempToday > p.m_OsmiaInCocoonPrewinteringTempThreshold then
        { s₁ with m_DDPrewinter :=
          s₁.m_DDPrewinter + (d.tempToday - p.m_OsmiaInCocoonPrewinteringTempThreshold) }
      else s₁
    (TTypeOfOsmiaState.toOsmias_Develop, s₂, false)

/-- Lifecycle of an overwintering adult as driven by
Osmia_InCocoon::Step: still in the cocoon, dead (st_Dying ran after a
toOsmias_Die), or emerged (st_Emerge ran after a toOsmias_NextStage);
in the last two cases the object leaves the simulation. -/
inductive CocoonLife where
  | inCocoon (s : InCocoonState)
  | dead
  | emerged
deriving DecidableEq, Repr

/-- One simulated day of an overwintering adult: run st_Develop if the
individual is still in the cocoon, otherwise nothing happens. Returns
the new lifecycle state and whether the WinterMortality draw happened. -/
def cocoonDayStep (p : Params) (d : CocoonDayInput) : CocoonLife → CocoonLife × Bool
  | CocoonLife.inCocoon s =>
    match Osmia_InCocoon.st_Develop p d s with
    | (TTypeOfOsmiaState.toOsmias_Die, _, drew) => (CocoonLife.dead, drew)
    | (TTypeOfOsmiaState.toOsmias_NextStage, _, drew) => (CocoonLife.emerged, drew)
    | (TTypeOfOsmiaState.toOsmias_Develop, s', drew) => (CocoonLife.inCocoon s', drew)
  | st => (st, false)

/-- Total number of WinterMortality draws consumed over a sequence of
days. -/
def cocoonRunDraws (p : Params) : List CocoonDayInput → CocoonLife → ℕ
  | [], _ => 0
  | d :: ds, st =>
    let r := cocoonDayStep p d st
    (if r.2 then 1 else 0) + cocoonRunDraws p ds r.1

/-- Outcome of Osmia_InCocoon::st_Emerge (Osmia_enhanced.cpp lines
2813-2871): males fall through without any CreateObjects call;
parasitised females return toOsmias_Die; unparasitised females create
exactly one Osmia_Female, carrying the fields the source writes into
struct_Osmia sO. -/
inductive EmergeOutcome where
  | maleDiscarded
  | parasitisedDies
  | newFemale (age : ℤ) (nest : Option ℕ) (parasitised : TTypeOfOsmiaParasitoids)
      (sex : Bool) (mass : ℚ)
deriving DecidableEq, Repr

/-- Osmia_InCocoon::st_Emerge (Osmia_enhanced.cpp lines 2813-2871):
sex false is quietly discarded; a parasitised female dies; otherwise a
single female is created with age 0, no nest, unparasitised status and
mass = m_OsmiaFemaleMassFromProvMassSlope * m_Mass
     + m_OsmiaFemaleMassFromProvMassConst. -/
def Osmia_InCocoon.st_Emerge (p : Params) (sex : Bool)
    (parasitoidStatus : TTypeOfOsmiaParasitoids) (mass : ℚ) : EmergeOutcome :=
  if sex then
    if parasitoidStatus ≠ TTypeOfOsmiaParasitoids.topara_Unparasitised then
      EmergeOutcome.parasitisedDies
    else
      EmergeOutcome.newFemale 0 none TTypeOfOsmiaParasitoids.topara_Unparasitised sex
        (p.m_OsmiaFemaleMassFromProvMassSlope * mass + p.m_OsmiaFemaleMassFromProvMassConst)
  else EmergeOutcome.maleDiscarded

/-- Number of successor objects created by an st_Emerge outcome
(CreateObjects is called with number = 1 only in the newFemale case). -/
def EmergeOutcome.offspringCount : EmergeOutcome → ℕ
  | EmergeOutcome.newFemale _ _ _ _ _ => 1
  | _ => 0

/-- The fields of struct_Osmia written at every metamorphosis transition
(Osmia_Population_Manager_dox.h; overwintering_degree_days defaults to
0.0 at line 722 and none of the four transition functions set it). -/
structure struct_Osmia where
  age : ℤ
  mass : ℚ
  sex : Bool
  parasitised : TTypeOfOsmiaParasitoids
  overwintering_degree_days : ℚ := 0
deriving DecidableEq, Repr

/-- Attributes shared through the Osmia_Base/Osmia_Egg inheritance chain
that the lifecycle claims track. -/
structure BeeAttrs where
  m_Age : ℤ
  m_Mass : ℚ
  m_Sex : Bool
  m_ParasitoidStatus : TTypeOfOsmiaParasitoids
  m_AgeDegrees : ℚ
  m_StageAge : ℤ
deriving DecidableEq, Repr

/-- Effect of the Osmia_Egg constructor chain on the tracked attributes
(Osmia_Base ctor, Osmia_enhanced.cpp lines 1421-1431: SetAge, SetMass,
SetParasitised from the data packet; Osmia_Egg ctor, lines 1583-1593:
m_AgeDegrees = 0, m_Sex = data->sex, m_StageAge = data->age). -/
def Osmia_Egg.construct (d : struct_Osmia) : BeeAttrs :=
  ⟨d.age, d.mass, d.sex, d.parasitised, 0, d.age⟩

/-- Osmia_Larva constructor: chains to Osmia_Egg with no further writes
to the tracked attributes (Osmia_enhanced.cpp lines 1805-1843). -/
def Osmia_Larva.construct (d : struct_Osmia) : BeeAttrs :=
  Osmia_Egg.construct d

/-- Attribute effect of the Osmia_Prepupa constructor (Osmia_enhanced.cpp
lines 2060-2066): chains to Osmia_Larva and resets m_AgeDegrees to 0
(the target-days draw is modelled by Osmia_Prepupa.construct above). -/
def Osmia_Prepupa.constructAttrs (d : struct_Osmia) : BeeAttrs :=
  { Osmia_Larva.construct d with m_AgeDegrees := 0 }

/-- Osmia_Pupa constructor: chains to Osmia_Prepupa with no further
writes to the tracked attributes (Osmia_enhanced.cpp lines 2242-2288). -/
def Osmia_Pupa.construct (d : struct_Osmia) : BeeAttrs :=
  Osmia_Prepupa.constructAttrs d

/-- Attribute effect of the Osmia_InCocoon constructor/ReInit chain
(Osmia_enhanced.cpp lines 2496-2502 and 2553-2558): chains to Osmia_Pupa
and sets m_AgeDegrees = data->overwintering_degree_days. -/
def Osmia_InCocoon.construct (d : struct_Osmia) : BeeAttrs :=
  { Osmia_Pupa.construct d with m_AgeDegrees := d.overwintering_degree_days }

/-- struct_Osmia packet built by Osmia_Egg::st_Hatch (Osmia_enhanced.cpp
lines 1766-1787): age, mass, sex and parasitism copied from the egg. -/
def Osmia_Egg.st_Hatch_packet (e : BeeAttrs) : struct_Osmia :=
  { age := e.m_Age, mass := e.m_Mass, sex := e.m_Sex, parasitised := e.m_ParasitoidStatus }

/-- struct_Osmia packet built by Osmia_Larva::st_Prepupate
(Osmia_enhanced.cpp lines 1973-1994). -/
def Osmia_Larva.st_Prepupate_packet (l : BeeAttrs) : struct_Osmia :=
  { age := l.m_Age, mass := l.m_Mass, sex := l.m_Sex, parasitised := l.m_ParasitoidStatus }

/-- struct_Osmia packet built by Osmia_Prepupa::st_Pupate
(Osmia_enhanced.cpp lines 2206-2227). -/
def Osmia_Prepupa.st_Pupate_packet (pp : BeeAttrs) : struct_Osmia :=
  { age := pp.m_Age, mass := pp.m_Mass, sex := pp.m_Sex, parasitised := pp.m_ParasitoidStatus }

/-- struct_Osmia packet built by Osmia_Pupa::st_Emerge (Osmia_enhanced.cpp
lines 2455-2476), the metamorphosis into the overwintering adult. -/
def Osmia_Pupa.st_Emerge_packet (pu : BeeAttrs) : struct_Osmia :=
  { age := pu.m_Age, mass := pu.m_Mass, sex := pu.m_Sex, parasitised := pu.m_ParasitoidStatus }

/-- The full metamorphosis chain Egg → Larva → Prepupa → Pupa →
OverwinteringAdult, composing each transition's packet with the next
stage's constructor exactly as CreateObjects does
(Osmia_Population_Manager_dox.cpp lines 2032-2107). -/
def lifecycleChain (e : BeeAttrs) : BeeAttrs :=
  Osmia_InCocoon.construct (Osmia_Pupa.st_Emerge_packet
    (Osmia_Pupa.construct (Osmia_Prepupa.st_Pupate_packet
      (Osmia_Prepupa.constructAttrs (Osmia_Larva.st_Prepupate_packet
        (Osmia_Larva.construct (Osmia_Egg.st_Hatch_packet e)))))))

/-- C++ double-to-unsigned conversion for a non-negative value
(truncation), as performed at a call of SetAgeDegrees with a double
argument. -/
def cppUnsignedOfDouble (v : ℚ) : ℕ := (⌊v⌋).toNat

/-- Osmia_Egg::SetAgeDegrees (Osmia_enh_PART2_LifeStages.h line 117):
the parameter is `unsigned a_agedegrees`, assigned to the double member
m_AgeDegrees. -/
def Osmia_Egg.SetAgeDegrees (a_agedegrees : ℕ) (s : DevState) : DevState :=
  { s with m_AgeDegrees := (a_agedegrees : ℚ) }

/-- A call of SetAgeDegrees with a double argument: the implicit C++
conversion truncates the double to unsigned before the assignment. -/
def Osmia_Egg.SetAgeDegreesDouble (v : ℚ) (s : DevState) : DevState :=
  Osmia_Egg.SetAgeDegrees (cppUnsignedOfDouble v) s

/-- Osmia_Egg::GetAgeDegrees (Osmia_enh_PART2_LifeStages.h line 114). -/
def Osmia_Egg.GetAgeDegrees (s : DevState) : ℚ := s.m_AgeDegrees

/-! ## Helper lemmas -/

/-- One egg Develop step never decreases the degree-day accumulator. -/
theorem egg_step_mono (p : Params) (o m : Bool) (t : ℚ) (s : DevState) :
    s.m_AgeDegrees ≤ ((Osmia_Egg.st_Develop p o m t s).2).m_AgeDegrees := by
  simp only [Osmia_Egg.st_Develop]
  split_ifs <;> simp <;> linarith

/-- One larva Develop step never decreases the degree-day accumulator. -/
theorem larva_step_mono (p : Params) (o m : Bool) (t : ℚ) (s : DevState) :
    s.m_AgeDegrees ≤ ((Osmia_Larva.st_Develop p o m t s).2).m_AgeDegrees := by
  simp only [Osmia_Larva.st_Develop]
  split_ifs <;> simp <;> linarith

/-- One pupa Develop step never decreases the degree-day accumulator. -/
theorem pupa_step_mono (p : Params) (m : Bool) (t : ℚ) (s : DevState) :
    s.m_AgeDegrees ≤ ((Osmia_Pupa.st_Develop p m t s).2).m_AgeDegrees := by
  simp only [Osmia_Pupa.st_Develop]
  split_ifs <;> simp <;> linarith

/-- Adding the positive part of b is an if-then-else on its sign. -/
theorem add_max_ite (a b : ℚ) : a + max 0 b = if b > 0 then a + b else a := by
  split_ifs with hb
  · rw [max_eq_right (le_of_lt hb)]
  · rw [max_eq_left (le_of_not_lt hb), add_zero]

/-- A surviving egg Develop step adds exactly max 0 (temp − threshold). -/
theorem egg_step_delta (p : Params) (o : Bool) (t : ℚ) (s : DevState) :
    ((Osmia_Egg.st_Develop p o false t s).2).m_AgeDegrees
      = s.m_AgeDegrees + max 0 (t - p.m_OsmiaEggDevelThreshold) := by
  rw [add_max_ite]
  simp only [Osmia_Egg.st_Develop, Bool.and_false, Bool.false_eq_true, if_false]
  split_ifs <;> rfl

/-- A surviving larva Develop step adds exactly max 0 (temp − threshold). -/
theorem larva_step_delta (p : Params) (o : Bool) (t : ℚ) (s : DevState) :
    ((Osmia_Larva.st_Develop p o false t s).2).m_AgeDegrees
      = s.m_AgeDegrees + max 0 (t - p.m_OsmiaLarvaDevelThreshold) := by
  rw [add_max_ite]
  simp only [Osmia_Larva.st_Develop, Bool.and_false, Bool.false_eq_true, if_false]
  split_ifs <;> rfl

/-- A surviving pupa Develop step adds exactly max 0 (temp − threshold). -/
theorem pupa_step_delta (p : Params) (t : ℚ) (s : DevState) :
    ((Osmia_Pupa.st_Develop p false t s).2).m_AgeDegrees
      = s.m_AgeDegrees + max 0 (t - p.m_OsmiaPupaDevelThreshold) := by
  rw [add_max_ite]
  simp only [Osmia_Pupa.st_Develop, Bool.false_eq_true, if_false]
  split_ifs <;> rfl

/-- The accumulator is non-decreasing along any sequence of egg days. -/
theorem eggRun_mono (p : Params) (ds : List (Bool × Bool × ℚ)) (s : DevState) :
    s.m_AgeDegrees ≤ (eggRun p ds s).m_AgeDegrees := by
  induction ds generalizing s with
  | nil => exact le_refl _
  | cons d ds ih =>
    obtain ⟨o, m, t⟩ := d
    exact le_trans (egg_step_mono p o m t s) (ih _)

/-- The accumulator is non-decreasing along any sequence of larva days. -/
theorem larvaRun_mono (p : Params) (ds : List (Bool × Bool × ℚ)) (s : DevState) :
    s.m_AgeDegrees ≤ (larvaRun p ds s).m_AgeDegrees := by
  induction ds generalizing s with
  | nil => exact le_refl _
  | cons d ds ih =>
    obtain ⟨o, m, t⟩ := d
    exact le_trans (larva_step_mono p o m t s) (ih _)

/-- The accumulator is non-decreasing along any sequence of pupa days. -/
theorem pupaRun_mono (p : Params) (ds : List (Bool × ℚ)) (s : DevState) :
    s.m_AgeDegrees ≤ (pupaRun p ds s).m_AgeDegrees := by
  induction ds generalizing s with
  | nil => exact le_refl _
  | cons d ds ih =>
    obtain ⟨m, t⟩ := d
    exact le_trans (pupa_step_mono p m t s) (ih _)

/-! ## Claim theorems -/

/-- With the default parameters and 150 prewinter degree-days, the test
dies exactly when the integer draw is below the raw value 2.87. -/
theorem winterMortality_default150 (r : ℤ) :
    Osmia_InCocoon.WinterMortality defaultParams r 150 = true ↔ (r : ℚ) < 287 / 100 := by
  unfold Osmia_InCocoon.WinterMortality
  have hval : defaultParams.m_OsmiaInCocoonWinterMortSlope * 150
      + defaultParams.m_OsmiaInCocoonWinterMortConst = 287 / 100 := by
    norm_num [defaultParams]
  rw [hval]
  split_ifs with h <;> simp [h]

/-- Among the hundred equiprobable draws of g_random_fnc(100), exactly
the draws 0, 1, 2 die at 150 prewinter degree-days. -/
theorem winterMortality_default150_filter :
    (Finset.range 100).filter
      (fun r => Osmia_InCocoon.WinterMortality defaultParams (Int.ofNat r) 150 = true)
      = Finset.range 3 := by
  ext r
  simp only [Finset.mem_filter, Finset.mem_range, winterMortality_default150]
  constructor
  · rintro ⟨-, h⟩
    rw [Int.ofNat_eq_coe, Int.cast_natCast] at h
    by_contra hr
    push_neg at hr
    have h3 : (3 : ℚ) ≤ (r : ℚ) := by exact_mod_cast hr
    linarith
  · intro hr
    refine ⟨by omega, ?_⟩
    rw [Int.ofNat_eq_coe, Int.cast_natCast]
    have h2q : (r : ℚ) ≤ 2 := by exact_mod_cast Nat.lt_succ_iff.mp hr
    linarith

/-- C1, counterexample: with the default parameters and
prewinterDegreeDays = 150, the raw value 0.05 * 150 − 4.63 = 2.87 is not
clamped and is compared against an integer draw from 0..99, so the draw
3 (a possible outcome) survives: death is not certain, and only 3 of the
100 equiprobable draws die. -/
theorem osmia_C1_counterexample :
    Osmia_InCocoon.WinterMortality defaultParams 3 150 = false ∧
    ((Finset.range 100).filter
      (fun r => Osmia_InCocoon.WinterMortality defaultParams (Int.ofNat r) 150 = true)).card
      ≠ 100 := by
  constructor
  · rw [Bool.eq_false_iff, Ne, winterMortality_default150]
    norm_num
  · rw [winterMortality_default150_filter, Finset.card_range]
    norm_num

/-- C1 (amended): the winter-mortality test compares a uniform integer
draw from 0..99 against the raw, unclamped value
winterMortSlope * prewinterDegreeDays + winterMortConst (interpreted as
a percentage); with prewinterDegreeDays = 150, slope = 0.05 and
const = −4.63 the raw value is 2.87, so the individual dies exactly on
the draws 0, 1, 2 — probability 3/100, not 1. -/
theorem osmia_C1_amended_theorem :
    (∀ r : ℤ, Osmia_InCocoon.WinterMortality defaultParams r 150 = true ↔ (r : ℚ) < 287/100) ∧
    ((Finset.range 100).filter
      (fun r => Osmia_InCocoon.WinterMortality defaultParams (Int.ofNat r) 150 = true)).card
      = 3 := by
  refine ⟨winterMortality_default150, ?_⟩
  rw [winterMortality_default150_filter, Finset.card_range]

/-- C2: the code contradicts the claim (and its own documentation): an
Egg or Larva in an open nest still accumulates degree-days — only the
mortality draw is skipped. At temperature 20 °C over the default
thresholds (0 and 4.5), a single Develop step in an open nest moves the
egg accumulator from 0 to 20 and the larva accumulator from 0 to 15.5. -/
theorem osmia_C2_open_nest_develops :
    Osmia_Egg.st_Develop defaultParams true false 20 ⟨0, 0⟩
      = (TTypeOfOsmiaState.toOsmias_Develop, ⟨1, 20⟩) ∧
    Osmia_Larva.st_Develop defaultParams true false 20 ⟨0, 0⟩
      = (TTypeOfOsmiaState.toOsmias_Develop, ⟨1, 31/2⟩) := by
  constructor <;>
    · norm_num [Osmia_Egg.st_Develop, Osmia_Larva.st_Develop, defaultParams]

/-- C3, counterexample: a surviving prepupa Develop step with today's
rate 1/2 moves the counter from 0 to 3/2, not to 1/2: the post-increment
in `m_AgeDegrees++` adds an extra unit beyond the population-wide rate. -/
theorem osmia_C3_counterexample :
    (Osmia_Prepupa.st_Develop false (1/2) ⟨0, 0, 45⟩).2.m_AgeDegrees = 3/2 ∧
    (Osmia_Prepupa.st_Develop false (1/2) ⟨0, 0, 45⟩).2.m_AgeDegrees ≠ 0 + 1/2 := by
  constructor <;> norm_num [Osmia_Prepupa.st_Develop]

/-- C3 (amended): a surviving Develop step increases the counter by the
population-wide prepupal rate plus one (the post-increment in the
comparison line), and transitions exactly when the counter plus today's
rate — before the extra unit — exceeds myTargetDays; the target itself
is untouched, and a failed mortality draw leaves the state unchanged. -/
theorem osmia_C3_amended_theorem (rate : ℚ) (s : PrepupaState) :
    (Osmia_Prepupa.st_Develop false rate s).2.m_AgeDegrees = s.m_AgeDegrees + rate + 1 ∧
    ((Osmia_Prepupa.st_Develop false rate s).1 = TTypeOfOsmiaState.toOsmias_NextStage ↔
      s.m_AgeDegrees + rate > s.m_myOsmiaPrepupaDevelTotalDays) ∧
    (Osmia_Prepupa.st_Develop false rate s).2.m_myOsmiaPrepupaDevelTotalDays
      = s.m_myOsmiaPrepupaDevelTotalDays ∧
    Osmia_Prepupa.st_Develop true rate s = (TTypeOfOsmiaState.toOsmias_Die, s) := by
  simp only [Osmia_Prepupa.st_Develop, Bool.false_eq_true, if_false, if_true]
  split_ifs with h <;> simp_all

/-- C5: for every temperature sequence the degree-day accumulator of an
Egg, Larva or Pupa is non-decreasing over successive Develop steps, and
a surviving step adds exactly max 0 (temp − threshold) — in particular a
day at or below the stage's threshold contributes exactly zero. -/
theorem osmia_C5_degree_day_monotonicity (p : Params) :
    (∀ ds s, s.m_AgeDegrees ≤ (eggRun p ds s).m_AgeDegrees) ∧
    (∀ ds s, s.m_AgeDegrees ≤ (larvaRun p ds s).m_AgeDegrees) ∧
    (∀ ds s, s.m_AgeDegrees ≤ (pupaRun p ds s).m_AgeDegrees) ∧
    (∀ o t s, ((Osmia_Egg.st_Develop p o false t s).2).m_AgeDegrees
      = s.m_AgeDegrees + max 0 (t - p.m_OsmiaEggDevelThreshold)) ∧
    (∀ o t s, ((Osmia_Larva.st_Develop p o false t s).2).m_AgeDegrees
      = s.m_AgeDegrees + max 0 (t - p.m_OsmiaLarvaDevelThreshold)) ∧
    (∀ t s, ((Osmia_Pupa.st_Develop p false t s).2).m_AgeDegrees
      = s.m_AgeDegrees + max 0 (t - p.m_OsmiaPupaDevelThreshold)) :=
  ⟨eggRun_mono p, larvaRun_mono p, pupaRun_mono p,
   fun o t s => egg_step_delta p o t s,
   fun o t s => larva_step_delta p o t s,
   fun t s => pupa_step_delta p t s⟩

/-- A prepupa Develop step never touches the individual target. -/
theorem prepupa_step_target (m : Bool) (r : ℚ) (s : PrepupaState) :
    (Osmia_Prepupa.st_Develop m r s).2.m_myOsmiaPrepupaDevelTotalDays
      = s.m_myOsmiaPrepupaDevelTotalDays := by
  simp only [Osmia_Prepupa.st_Develop]
  split_ifs <;> rfl

/-- The individual target is invariant along any sequence of prepupa
Develop steps. -/
theorem prepupaRun_target (ds : List (Bool × ℚ)) (s : PrepupaState) :
    (prepupaRun ds s).m_myOsmiaPrepupaDevelTotalDays = s.m_myOsmiaPrepupaDevelTotalDays := by
  induction ds generalizing s with
  | nil => rfl
  | cons d ds ih =>
    obtain ⟨m, r⟩ := d
    rw [prepupaRun, ih, prepupa_step_target]

/-- C6: the target drawn by the Prepupa constructor is an affine image
of the uniform draw u ∈ [0,1], lies in the closed interval
[0.9 · baseDays, 1.1 · baseDays], fills that whole interval, is drawn
with the counter starting at 0, and is never changed by any later
Develop step. -/
theorem osmia_C6_target_draw (p : Params) (u : ℚ) (hu0 : 0 ≤ u) (hu1 : u ≤ 1)
    (hbase : 0 ≤ p.m_OsmiaPrepupalDevelTotalDays) :
    (9/10) * p.m_OsmiaPrepupalDevelTotalDays ≤ Osmia_Prepupa.targetDays p u ∧
    Osmia_Prepupa.targetDays p u ≤ (11/10) * p.m_OsmiaPrepupalDevelTotalDays ∧
    Osmia_Prepupa.targetDays p u
      = (9/10) * p.m_OsmiaPrepupalDevelTotalDays
        + ((2/10) * p.m_OsmiaPrepupalDevelTotalDays) * u ∧
    (∀ age, (Osmia_Prepupa.construct p age u).m_myOsmiaPrepupaDevelTotalDays
        = Osmia_Prepupa.targetDays p u ∧ (Osmia_Prepupa.construct p age u).m_AgeDegrees = 0) ∧
    (∀ ds s, (prepupaRun ds s).m_myOsmiaPrepupaDevelTotalDays
        = s.m_myOsmiaPrepupaDevelTotalDays) ∧
    (∀ y, (9/10) * p.m_OsmiaPrepupalDevelTotalDays ≤ y →
        y ≤ (11/10) * p.m_OsmiaPrepupalDevelTotalDays →
        0 < p.m_OsmiaPrepupalDevelTotalDays →
        ∃ v, 0 ≤ v ∧ v ≤ 1 ∧ Osmia_Prepupa.targetDays p v = y) := by
  refine ⟨?_, ?_, ?_, fun age => ⟨rfl, rfl⟩, prepupaRun_target, ?_⟩
  · unfold Osmia_Prepupa.targetDays
    nlinarith [mul_nonneg hbase hu0]
  · unfold Osmia_Prepupa.targetDays
    nlinarith [mul_le_of_le_one_right hbase hu1]
  · unfold Osmia_Prepupa.targetDays
    ring
  · intro y h1 h2 hpos
    have hb2 : 0 < (2/10) * p.m_OsmiaPrepupalDevelTotalDays := by linarith
    refine ⟨(y - (9/10) * p.m_OsmiaPrepupalDevelTotalDays)
        / ((2/10) * p.m_OsmiaPrepupalDevelTotalDays), ?_, ?_, ?_⟩
    · exact div_nonneg (by linarith) hb2.le
    · rw [div_le_one hb2]
      linarith
    · unfold Osmia_Prepupa.targetDays
      field_simp
      ring

/-- C6, witness at the defaults (baseDays = 45) with u = 1/2. -/
theorem osmia_C6_witness :
    (9/10) * defaultParams.m_OsmiaPrepupalDevelTotalDays
        ≤ Osmia_Prepupa.targetDays defaultParams (1/2) ∧
      Osmia_Prepupa.targetDays defaultParams (1/2)
        ≤ (11/10) * defaultParams.m_OsmiaPrepupalDevelTotalDays :=
  ⟨(osmia_C6_target_draw defaultParams (1/2) (by norm_num) (by norm_num)
      (by norm_num [defaultParams])).1,
   (osmia_C6_target_draw defaultParams (1/2) (by norm_num) (by norm_num)
      (by norm_num [defaultParams])).2.1⟩

/-- C8: at emergence a male is discarded with no successor object, a
parasitised female dies with no successor object, and an unparasitised
female yields exactly one new Female with mass
slope · cocoonMass + const, age 0 and no nest reference. -/
theorem osmia_C8_emergence (p : Params) (mass : ℚ) :
    (∀ paras, Osmia_InCocoon.st_Emerge p false paras mass = EmergeOutcome.maleDiscarded ∧
      (Osmia_InCocoon.st_Emerge p false paras mass).offspringCount = 0) ∧
    (∀ paras, paras ≠ TTypeOfOsmiaParasitoids.topara_Unparasitised →
      Osmia_InCocoon.st_Emerge p true paras mass = EmergeOutcome.parasitisedDies ∧
      (Osmia_InCocoon.st_Emerge p true paras mass).offspringCount = 0) ∧
    Osmia_InCocoon.st_Emerge p true TTypeOfOsmiaParasitoids.topara_Unparasitised mass
      = EmergeOutcome.newFemale 0 none TTypeOfOsmiaParasitoids.topara_Unparasitised true
          (p.m_OsmiaFemaleMassFromProvMassSlope * mass + p.m_OsmiaFemaleMassFromProvMassConst) ∧
    (Osmia_InCocoon.st_Emerge p true
        TTypeOfOsmiaParasitoids.topara_Unparasitised mass).offspringCount = 1 := by
  refine ⟨fun paras => ⟨rfl, rfl⟩, fun paras h => ?_, rfl, rfl⟩
  constructor <;> simp [Osmia_InCocoon.st_Emerge, EmergeOutcome.offspringCount, h]

/-- C8, witness: a Bombylid-parasitised female with mass 100 dies with
no offspring at emergence. -/
theorem osmia_C8_witness :
    Osmia_InCocoon.st_Emerge defaultParams true
        TTypeOfOsmiaParasitoids.topara_Bombylid 100 = EmergeOutcome.parasitisedDies ∧
      (Osmia_InCocoon.st_Emerge defaultParams true
        TTypeOfOsmiaParasitoids.topara_Bombylid 100).offspringCount = 0 :=
  (osmia_C8_emergence defaultParams 100).2.1
    TTypeOfOsmiaParasitoids.topara_Bombylid (by simp)

/-- C9: each metamorphosis transition Egg→Larva, Larva→Prepupa,
Prepupa→Pupa and Pupa→OverwinteringAdult passes mass, sex and
parasitism status to the successor unchanged; composing the whole chain,
the sex assigned at Egg creation reaches the OverwinteringAdult
untouched and the mass at OverwinteringAdult creation equals the mass
the pupa carried at destruction. -/
theorem osmia_C9_metamorphosis_carry (e l pp pu : BeeAttrs) :
    ((Osmia_Larva.construct (Osmia_Egg.st_Hatch_packet e)).m_Mass = e.m_Mass ∧
     (Osmia_Larva.construct (Osmia_Egg.st_Hatch_packet e)).m_Sex = e.m_Sex ∧
     (Osmia_Larva.construct (Osmia_Egg.st_Hatch_packet e)).m_ParasitoidStatus
       = e.m_ParasitoidStatus) ∧
    ((Osmia_Prepupa.constructAttrs (Osmia_Larva.st_Prepupate_packet l)).m_Mass = l.m_Mass ∧
     (Osmia_Prepupa.constructAttrs (Osmia_Larva.st_Prepupate_packet l)).m_Sex = l.m_Sex ∧
     (Osmia_Prepupa.constructAttrs (Osmia_Larva.st_Prepupate_packet l)).m_ParasitoidStatus
       = l.m_ParasitoidStatus) ∧
    ((Osmia_Pupa.construct (Osmia_Prepupa.st_Pupate_packet pp)).m_Mass = pp.m_Mass ∧
     (Osmia_Pupa.construct (Osmia_Prepupa.st_Pupate_packet pp)).m_Sex = pp.m_Sex ∧
     (Osmia_Pupa.construct (Osmia_Prepupa.st_Pupate_packet pp)).m_ParasitoidStatus
       = pp.m_ParasitoidStatus) ∧
    ((Osmia_InCocoon.construct (Osmia_Pupa.st_Emerge_packet pu)).m_Mass = pu.m_Mass ∧
     (Osmia_InCocoon.construct (Osmia_Pupa.st_Emerge_packet pu)).m_Sex = pu.m_Sex ∧
     (Osmia_InCocoon.construct (Osmia_Pupa.st_Emerge_packet pu)).m_ParasitoidStatus
       = pu.m_ParasitoidStatus) ∧
    (lifecycleChain e).m_Sex = e.m_Sex ∧
    (lifecycleChain e).m_Mass = e.m_Mass ∧
    (lifecycleChain e).m_ParasitoidStatus = e.m_ParasitoidStatus := by
  simp only [lifecycleChain, Osmia_InCocoon.construct, Osmia_Pupa.construct,
    Osmia_Prepupa.constructAttrs, Osmia_Larva.construct, Osmia_Egg.construct,
    Osmia_Egg.st_Hatch_packet, Osmia_Larva.st_Prepupate_packet,
    Osmia_Prepupa.st_Pupate_packet, Osmia_Pupa.st_Emerge_packet]
  simp

/-- C10: SetAgeDegrees takes an unsigned parameter, so writing a
non-negative double v and reading it back returns the truncation ⌊v⌋;
whenever v is not an integer the round trip loses the fractional part. -/
theorem osmia_C10_set_get_truncates (v : ℚ) (s : DevState) (h0 : 0 ≤ v)
    (hfrac : ((⌊v⌋ : ℤ) : ℚ) ≠ v) :
    Osmia_Egg.GetAgeDegrees (Osmia_Egg.SetAgeDegreesDouble v s) = ((⌊v⌋ : ℤ) : ℚ) ∧
    Osmia_Egg.GetAgeDegrees (Osmia_Egg.SetAgeDegreesDouble v s) ≠ v := by
  have hfl : (0 : ℤ) ≤ ⌊v⌋ := Int.floor_nonneg.mpr h0
  have hget : Osmia_Egg.GetAgeDegrees (Osmia_Egg.SetAgeDegreesDouble v s) = ((⌊v⌋ : ℤ) : ℚ) := by
    simp only [Osmia_Egg.GetAgeDegrees, Osmia_Egg.SetAgeDegreesDouble, Osmia_Egg.SetAgeDegrees,
      cppUnsignedOfDouble]
    exact_mod_cast congrArg (fun z : ℤ => (z : ℚ)) (Int.toNat_of_nonneg hfl)
  exact ⟨hget, by rw [hget]; exact hfrac⟩

/-- A step that consumes the winter-mortality draw can only happen in
the pre-emergence phase, on a warm non-reset day on which the decrement
takes the counter below 1. -/
theorem inCocoon_drew_conditions (p : Params) (d : CocoonDayInput) (s : InCocoonState)
    (h : (Osmia_InCocoon.st_Develop p d s).2.2 = true) :
    d.endPreWinter = true ∧ d.overWinterEnd = true ∧ d.dayInYear ≠ March + 1 ∧
      p.m_OsmiaInCocoonEmergenceTempThreshold ≤ d.tempToday ∧
      s.m_emergencecounter - 1 < 1 := by
  simp only [Osmia_InCocoon.st_Develop] at h
  split_ifs at h <;> simp_all [ge_iff_le]

/-- A step that consumes the winter-mortality draw returns Die or
NextStage, never Develop: the individual leaves the Develop state. -/
theorem inCocoon_drew_leaves (p : Params) (d : CocoonDayInput) (s : InCocoonState)
    (h : (Osmia_InCocoon.st_Develop p d s).2.2 = true) :
    (Osmia_InCocoon.st_Develop p d s).1 = TTypeOfOsmiaState.toOsmias_Die ∨
      (Osmia_InCocoon.st_Develop p d s).1 = TTypeOfOsmiaState.toOsmias_NextStage := by
  simp only [Osmia_InCocoon.st_Develop] at h ⊢
  split_ifs at h ⊢ <;> simp_all

/-- During prewintering or deep winter the step consumes no
winter-mortality draw. -/
theorem inCocoon_no_draw_outside_preemergence (p : Params) (d : CocoonDayInput)
    (s : InCocoonState) (h : d.endPreWinter = false ∨ d.overWinterEnd = false) :
    (Osmia_InCocoon.st_Develop p d s).2.2 = false := by
  rcases h with h | h <;> simp only [Osmia_InCocoon.st_Develop, h] <;> split_ifs <;> simp_all

/-- A lifecycle day whose step drew the winter-mortality test ends with
the individual dead or emerged. -/
theorem cocoonDayStep_drew (p : Params) (d : CocoonDayInput) (s : InCocoonState)
    (h : (cocoonDayStep p d (CocoonLife.inCocoon s)).2 = true) :
    (cocoonDayStep p d (CocoonLife.inCocoon s)).1 = CocoonLife.dead ∨
      (cocoonDayStep p d (CocoonLife.inCocoon s)).1 = CocoonLife.emerged := by
  have hl := inCocoon_drew_leaves p d s
  rcases hst : Osmia_InCocoon.st_Develop p d s with ⟨st, s', drew⟩
  rw [hst] at hl
  simp only [cocoonDayStep, hst] at h ⊢
  cases st with
  | toOsmias_Die => exact Or.inl rfl
  | toOsmias_NextStage => exact Or.inr rfl
  | toOsmias_Develop => simpa using hl (by simpa using h)

/-- A dead individual consumes no further draws. -/
theorem cocoonRunDraws_dead (p : Params) (ds : List CocoonDayInput) :
    cocoonRunDraws p ds CocoonLife.dead = 0 := by
  induction ds with
  | nil => rfl
  | cons d ds ih => simpa [cocoonRunDraws, cocoonDayStep] using ih

/-- An emerged individual consumes no further draws. -/
theorem cocoonRunDraws_emerged (p : Params) (ds : List CocoonDayInput) :
    cocoonRunDraws p ds CocoonLife.emerged = 0 := by
  induction ds with
  | nil => rfl
  | cons d ds ih => simpa [cocoonRunDraws, cocoonDayStep] using ih

/-- Over any sequence of days, the winter-mortality draw is consumed at
most once. -/
theorem cocoonRunDraws_le_one (p : Params) (ds : List CocoonDayInput) :
    ∀ st, cocoonRunDraws p ds st ≤ 1 := by
  induction ds with
  | nil => intro st; simp [cocoonRunDraws]
  | cons d ds ih =>
    intro st
    rcases st with s | _ | _
    · cases hdrew : (cocoonDayStep p d (CocoonLife.inCocoon s)).2 with
      | false => simpa [cocoonRunDraws, hdrew] using ih _
      | true =>
        rcases cocoonDayStep_drew p d s hdrew with h | h <;>
          simp [cocoonRunDraws, hdrew, h, cocoonRunDraws_dead, cocoonRunDraws_emerged]
    · simp [cocoonRunDraws_dead]
    · simp [cocoonRunDraws_emerged]

/-- C7: an OverwinteringAdult is subjected to the winter-mortality draw
at most once over its whole lifetime; the draw can happen only at the
step on which the decremented emergence counter drops below 1 (in the
pre-emergence phase, on a warm non-reset day), and never during the
prewintering or deep-winter phases. -/
theorem osmia_C7_single_mortality_draw (p : Params) :
    (∀ ds s, cocoonRunDraws p ds (CocoonLife.inCocoon s) ≤ 1) ∧
    (∀ d s, (Osmia_InCocoon.st_Develop p d s).2.2 = true →
      d.endPreWinter = true ∧ d.overWinterEnd = true ∧ d.dayInYear ≠ March + 1 ∧
        p.m_OsmiaInCocoonEmergenceTempThreshold ≤ d.tempToday ∧
        s.m_emergencecounter - 1 < 1) ∧
    (∀ d s, d.endPreWinter = false ∨ d.overWinterEnd = false →
      (Osmia_InCocoon.st_Develop p d s).2.2 = false) :=
  ⟨fun ds s => cocoonRunDraws_le_one p ds (CocoonLife.inCocoon s),
   fun d s h => inCocoon_drew_conditions p d s h,
   fun d s h => inCocoon_no_draw_outside_preemergence p d s h⟩

/-- C7, witness: a warm pre-emergence day with counter 1 consumes the
draw (and satisfies the stated conditions); a prewintering day consumes
none; a one-day run consumes at most one draw. -/
theorem osmia_C7_witness :
    cocoonRunDraws defaultParams [⟨true, true, 100, 10, 50, 0, 0⟩]
        (CocoonLife.inCocoon ⟨0, 0, 0, 1⟩) ≤ 1 ∧
      ((⟨true, true, 100, 10, 50, 0, 0⟩ : CocoonDayInput).endPreWinter = true ∧
        (⟨true, true, 100, 10, 50, 0, 0⟩ : CocoonDayInput).overWinterEnd = true ∧
        (⟨true, true, 100, 10, 50, 0, 0⟩ : CocoonDayInput).dayInYear ≠ March + 1 ∧
        defaultParams.m_OsmiaInCocoonEmergenceTempThreshold
          ≤ (⟨true, true, 100, 10, 50, 0, 0⟩ : CocoonDayInput).tempToday ∧
        (⟨0, 0, 0, 1⟩ : InCocoonState).m_emergencecounter - 1 < 1) ∧
      (Osmia_InCocoon.st_Develop defaultParams ⟨false, true, 100, 20, 50, 0, 0⟩
        ⟨0, 0, 0, 5⟩).2.2 = false := by
  refine ⟨(osmia_C7_single_mortality_draw defaultParams).1 _ _,
    (osmia_C7_single_mortality_draw defaultParams).2.1 _ _ ?_,
    (osmia_C7_single_mortality_draw defaultParams).2.2 _ _ (Or.inl rfl)⟩
  simp only [Osmia_InCocoon.st_Develop, Osmia_InCocoon.WinterMortality, March, defaultParams]
  norm_num

/-- C4, counterexample: an OverwinteringAdult whose counter is still 5
at the late-season cutoff day survives it when that day is cold (0 °C,
below the 5 °C emergence threshold), and is also still alive and
developing on a warm day after the cutoff — so it does survive in the
cocoon past the cutoff, and the forced death does depend on that day's
temperature. -/
theorem osmia_C4_counterexample :
    (Osmia_InCocoon.st_Develop defaultParams ⟨true, true, June - 1, 0, 50, 0, 0⟩
        ⟨0, 0, 0, 5⟩).1 = TTypeOfOsmiaState.toOsmias_Develop ∧
    (Osmia_InCocoon.st_Develop defaultParams ⟨true, true, June + 10, 20, 50, 0, 0⟩
        ⟨0, 0, 0, 5⟩).1 = TTypeOfOsmiaState.toOsmias_Develop := by
  constructor <;>
    · simp only [Osmia_InCocoon.st_Develop, Osmia_InCocoon.WinterMortality, March, June,
        defaultParams]
      norm_num

/-- C4 (amended): in the pre-emergence phase (both seasonal flags set,
not the 1 March reset day) the step kills the individual without a
mortality draw exactly when that day's temperature is at or above the
emergence threshold, the decremented counter is still at least 1, and
the day in year equals June − 1; on a colder day — or any other day —
the cutoff does not fire, so the individual can survive in the cocoon
past it. -/
theorem osmia_C4_amended_theorem (p : Params) (d : CocoonDayInput) (s : InCocoonState)
    (h1 : d.endPreWinter = true) (h2 : d.overWinterEnd = true)
    (h3 : d.dayInYear ≠ March + 1) :
    ((Osmia_InCocoon.st_Develop p d s).1 = TTypeOfOsmiaState.toOsmias_Die ∧
        (Osmia_InCocoon.st_Develop p d s).2.2 = false) ↔
      (p.m_OsmiaInCocoonEmergenceTempThreshold ≤ d.tempToday ∧
        1 ≤ s.m_emergencecounter - 1 ∧ d.dayInYear = June - 1) := by
  simp only [Osmia_InCocoon.st_Develop, h1, h2, if_true, Bool.not_true, Bool.false_eq_true,
    if_false, if_neg h3]
  split_ifs with ht hc hwm hj <;> simp_all [ge_iff_le]

/-- C4, witness for the amended theorem: on a warm cutoff day with the
counter still at 5 the individual is killed by the cutoff, without any
mortality draw. -/
theorem osmia_C4_witness :
    (Osmia_InCocoon.st_Develop defaultParams ⟨true, true, June - 1, 10, 99, 0, 0⟩
        ⟨0, 0, 0, 5⟩).1 = TTypeOfOsmiaState.toOsmias_Die ∧
      (Osmia_InCocoon.st_Develop defaultParams ⟨true, true, June - 1, 10, 99, 0, 0⟩
        ⟨0, 0, 0, 5⟩).2.2 = false :=
  (osmia_C4_amended_theorem defaultParams ⟨true, true, June - 1, 10, 99, 0, 0⟩ ⟨0, 0, 0, 5⟩
      rfl rfl (by simp [June, March])).mpr
    ⟨by norm_num [defaultParams], by norm_num, rfl⟩

/-- C10, witness: writing 5/2 and reading back yields ⌊5/2⌋ = 2, not
5/2. -/
theorem osmia_C10_witness :
    Osmia_Egg.GetAgeDegrees (Osmia_Egg.SetAgeDegreesDouble (5/2) ⟨0, 0⟩)
      = ((⌊(5/2 : ℚ)⌋ : ℤ) : ℚ) ∧
    Osmia_Egg.GetAgeDegrees (Osmia_Egg.SetAgeDegreesDouble (5/2) ⟨0, 0⟩) ≠ 5/2 :=
  osmia_C10_set_get_truncates (5/2) ⟨0, 0⟩ (by norm_num) (by norm_num)

end Osmia
